import Mathlib

/-!
Shallow embedding of the CI dashboard's status-normalization and
health-reconciliation core (`services/jenkins.py`, `services/github.py`).

Python dictionaries produced by the clients are embedded as Lean structures;
fields that may be absent or `None` in Python are `Option`s.  Network calls
are embedded as an explicit environment record: each upstream endpoint is a
field holding either the decoded payload (`Except.ok`) or a raised transport
error (`Except.error`).  Every Python function modelled here catches its own
exceptions (or provably cannot raise), so the embedded functions are total.
Machine integers do not overflow in any of this code (Python ints are
unbounded), so numbers are `Nat`/`Int`.
-/

namespace CIDashboard

/-! ## Data model -/

/-- One normalized pipeline stage, as built in `get_build_stages`
(`services/jenkins.py`): `{'name': …, 'status': …, 'duration_ms': …,
'start_time': …}`.  `name` and `start_time` come from `node.get(…)` and may
be `None`. -/
structure Stage where
  name : Option String
  status : String
  duration_ms : Int
  start_time : Option Int
deriving Repr, DecidableEq

/-- One raw Blue Ocean node as returned by the
`…/runs/{n}/nodes/` endpoint; every field is read with `node.get(…)` and may
be absent (`none`). -/
structure BONode where
  type : Option String
  displayName : Option String
  result : Option String
  state : Option String
  durationInMillis : Option Int
  startTime : Option Int
deriving Repr, DecidableEq

/-! ## Status normalizer (`services/jenkins.py`) -/

/-- The Python dict literal `result_map` inside `_map_blueocean_status`,
embedded as an association list. -/
def result_map : List (String × String) :=
  [("SUCCESS", "success"),
   ("FAILURE", "failed"),
   ("UNSTABLE", "unstable"),
   ("ABORTED", "aborted"),
   ("NOT_BUILT", "pending")]

/-- `dict.get(key, default)` on a string-keyed dict embedded as an
association list. -/
def dictGetD (m : List (String × String)) (k : String) (d : String) : String :=
  match m with
  | [] => d
  | (k₀, v₀) :: rest => if k = k₀ then v₀ else dictGetD rest k d

/-- `JenkinsClient._map_blueocean_status(result, state)`.  Both arguments come
from `node.get(…)` and may be `None`.  `result_map.get(result, 'unknown')` is
the dict lookup with default (a `None` key is never present in the dict,
hence falls to the default). -/
def map_blueocean_status (result state : Option String) : String :=
  if state = some "RUNNING" then "running"
  else if state = some "QUEUED" then "pending"
  else if state = some "SKIPPED" ∨ state = some "NOT_BUILT" then "pending"
  else if state = some "FINISHED" then
    match result with
    | some r => dictGetD result_map r "unknown"
    | none => "unknown"
  else "unknown"

/-- Modelled from the spec (§4.1): the five-step precedence for
`mapBlueOceanStatus`, first match wins, with the `FINISHED` sub-map written
out exactly as the spec lists it (`SUCCESS→success, FAILURE→failed,
UNSTABLE→unstable, ABORTED→aborted, NOT_BUILT→pending`, anything else
including null → `unknown`).  Used only to compare against the source
embedding `map_blueocean_status`. -/
def specMapBlueOceanStatus (result state : Option String) : String :=
  if state = some "RUNNING" then "running"
  else if state = some "QUEUED" then "pending"
  else if state = some "SKIPPED" ∨ state = some "NOT_BUILT" then "pending"
  else if state = some "FINISHED" then
    if result = some "SUCCESS" then "success"
    else if result = some "FAILURE" then "failed"
    else if result = some "UNSTABLE" then "unstable"
    else if result = some "ABORTED" then "aborted"
    else if result = some "NOT_BUILT" then "pending"
    else "unknown"
  else "unknown"

/-- The sort key of `stages.sort(key=lambda s: (0, s['start_time']) if
s.get('start_time') else (1, ''))`.  Python truthiness: the first branch is
taken iff `start_time` is present and nonzero.  The second component of the
`(1, '')` bucket never takes part in a cross-bucket comparison and is equal
within the bucket, so it is embedded as `0 : Int`. -/
def stageKey (s : Stage) : Nat × Int :=
  match s.start_time with
  | some t => if t ≠ 0 then (0, t) else (1, 0)
  | none => (1, 0)

/-- Lexicographic `≤` on Python's sort-key tuples: `(x1, y1) <= (x2, y2)` iff
`x1 < x2`, or `x1 == x2` and `y1 <= y2`. -/
def keyLe (a b : Nat × Int) : Prop :=
  a.1 < b.1 ∨ (a.1 = b.1 ∧ a.2 ≤ b.2)

instance : DecidableRel keyLe :=
  fun a b => inferInstanceAs (Decidable (a.1 < b.1 ∨ (a.1 = b.1 ∧ a.2 ≤ b.2)))

/-- The total preorder `stages.sort` orders by: pointwise `keyLe` on the sort
keys. -/
def stageLe (a b : Stage) : Prop := keyLe (stageKey a) (stageKey b)

instance : DecidableRel stageLe :=
  fun a b => inferInstanceAs (Decidable (keyLe (stageKey a) (stageKey b)))

instance : IsTotal Stage stageLe :=
  ⟨by intro a b; unfold stageLe keyLe; omega⟩

instance : IsTrans Stage stageLe :=
  ⟨by intro a b c; unfold stageLe keyLe; omega⟩

/-- `stages.sort(key=…)`: Python `list.sort` is a stable sort by the key, and
a stable sort with respect to a total preorder is unique, so any stable sort
— here `List.insertionSort` — is a faithful embedding. -/
def sortStages (stages : List Stage) : List Stage :=
  stages.insertionSort stageLe

/-- The overall-status loop at the end of `get_build_stages`: starting from
`'SUCCESS'`, scan the (sorted) stages and `break` on the first stage whose
status is `'running'` (→ `'IN_PROGRESS'`) or `'failed'` (→ `'FAILED'`). -/
def overallStatus : List Stage → String
  | [] => "SUCCESS"
  | s :: rest =>
    if s.status = "running" then "IN_PROGRESS"
    else if s.status = "failed" then "FAILED"
    else overallStatus rest

/-- Modelled from the spec (§4.1 "Overall-status-from-stages derivation"): if
any stage status is `running`, overall = `IN_PROGRESS`; else if any stage
status is `failed`, overall = `FAILED`; else `SUCCESS`.  Used only to compare
against the source embedding `overallStatus`. -/
def specOverallStatus (stages : List Stage) : String :=
  if stages.any (fun s => s.status == "running") then "IN_PROGRESS"
  else if stages.any (fun s => s.status == "failed") then "FAILED"
  else "SUCCESS"

/-! ## Pipeline health reconciler (`services/jenkins.py`) -/

/-- The dict returned by `get_last_build` on success: `number`, `result` and
`branch` may be `None` (`data.get(…)`); `building` defaults to `False`.
(`duration`, `timestamp`, `url` are carried along unchanged and play no role
in the reconciler, so they are omitted from the embedding.) -/
structure LastBuild where
  number : Option Nat
  result : Option String
  building : Bool
  branch : Option String
deriving Repr, DecidableEq

/-- Embedding of the Jenkins upstream: one field per endpoint the reconciler
can hit.  `Except.error` is a raised/caught transport error, `Except.ok` the
decoded JSON.  `lastBuild` is `get_last_build()`'s outcome (the error dict
`{'error': …}` vs. the build dict); the three marker fields are the
`last{Successful,Failed,Unstable}Build/api/json` queries, whose payload is
read as `data.get('number', 0)`; `nodes` is the Blue Ocean
`…/runs/{build_number}/nodes/` fetch, keyed by the (possibly `None`) build
number interpolated into the URL. -/
structure JenkinsEnv where
  lastBuild : Except String LastBuild
  lastSuccessful : Except Unit Nat
  lastFailed : Except Unit Nat
  lastUnstable : Except Unit Nat
  nodes : Option Nat → Except String (List BONode)

/-- The dict returned by `get_build_stages`: on success
`{'stages': …, 'build_number': …, 'status': …}`, on failure
`{'stages': [], 'error': …}` (then `build_number`/`status` keys are absent,
collapsing with a `None` value under `.get`). -/
structure StagesResult where
  stages : List Stage
  build_number : Option Nat
  status : Option String
  error : Option String
deriving Repr, DecidableEq

/-- The stage-construction loop of `get_build_stages`: keep the nodes whose
`type` is `'STAGE'`, normalize each, then sort by start time. -/
def stagesFromNodes (data : List BONode) : List Stage :=
  sortStages ((data.filter (fun node => node.type = some "STAGE")).map
    (fun node =>
      { name := node.displayName,
        status := map_blueocean_status node.result node.state,
        duration_ms := node.durationInMillis.getD 0,
        start_time := node.startTime }))

/-- `JenkinsClient.get_build_stages(build_number)`.  A `none` argument is
Python's default `build_number=None`: the method then re-reads the last build
and uses its number (propagating a last-build error).  The Blue Ocean fetch
and all JSON handling sit inside one `try`, so any error yields
`{'stages': [], 'error': …}`. -/
def get_build_stages (env : JenkinsEnv) (build_number : Option Nat) :
    StagesResult :=
  match build_number with
  | none =>
    match env.lastBuild with
    | .error e => { stages := [], build_number := none, status := none, error := some e }
    | .ok lb =>
      match env.nodes lb.number with
      | .error e => { stages := [], build_number := none, status := none, error := some e }
      | .ok data =>
        let stages := stagesFromNodes data
        { stages := stages, build_number := lb.number,
          status := some (overallStatus stages), error := none }
  | some n =>
    match env.nodes (some n) with
    | .error e => { stages := [], build_number := none, status := none, error := some e }
    | .ok data =>
      let stages := stagesFromNodes data
      { stages := stages, build_number := some n,
        status := some (overallStatus stages), error := none }

/-- The collection loop of `_get_last_meaningful_build`: query the three
markers in order, swallow each query's exception, and append
`(health, build_number)` when the query succeeded with a truthy (nonzero)
`number`. -/
def collectBuilds (env : JenkinsEnv) : List (String × Nat) :=
  (match env.lastSuccessful with
   | .ok n => if n ≠ 0 then [("healthy", n)] else []
   | .error _ => []) ++
  (match env.lastFailed with
   | .ok n => if n ≠ 0 then [("failed", n)] else []
   | .error _ => []) ++
  (match env.lastUnstable with
   | .ok n => if n ≠ 0 then [("unstable", n)] else []
   | .error _ => [])

/-- The total preorder of `builds.sort(key=lambda x: x[1], reverse=True)`:
descending by build number. -/
def buildDescLe (a b : String × Nat) : Prop := b.2 ≤ a.2

instance : DecidableRel buildDescLe :=
  fun a b => inferInstanceAs (Decidable (b.2 ≤ a.2))

instance : IsTotal (String × Nat) buildDescLe :=
  ⟨by intro a b; unfold buildDescLe; omega⟩

instance : IsTrans (String × Nat) buildDescLe :=
  ⟨by intro a b c; unfold buildDescLe; omega⟩

/-- `builds.sort(key=lambda x: x[1], reverse=True)`: stable descending sort by
build number (ties keep their insertion order), embedded as a stable
insertion sort on the reversed comparison. -/
def sortBuildsDesc (builds : List (String × Nat)) : List (String × Nat) :=
  builds.insertionSort buildDescLe

/-- `JenkinsClient._get_last_meaningful_build()`: `('unknown', None)` when no
marker query produced a nonzero number, otherwise the head of the descending
sort (`builds[0]`).  The inner `[]` branch is unreachable — `mergeSort`
preserves length — and mirrors the fact that `builds[0]` cannot raise after
the `if not builds` guard. -/
def lastMeaningfulBuild (env : JenkinsEnv) : String × Option Nat :=
  let builds := collectBuilds env
  if builds.isEmpty then ("unknown", none)
  else
    match sortBuildsDesc builds with
    | [] => ("unknown", none)
    | b :: _ => (b.1, some b.2)

/-- The dict returned by `get_pipeline_status`. `last_build` is the raw dict
from `get_last_build` (error dict or build dict); `build_number` is
`stages.get('build_number')`; `branch` is `last_build.get('branch', 'main')`,
which is `'main'` only when the `branch` *key* is absent (the error dict) and
is the stored value — possibly `None` — otherwise. -/
structure PipelineStatus where
  health : String
  last_build : Except String LastBuild
  stages : List Stage
  build_number : Option Nat
  branch : Option String

/-- `JenkinsClient.get_pipeline_status()`: the if/elif chain over the latest
build's observed state. -/
def get_pipeline_status (env : JenkinsEnv) : PipelineStatus :=
  let last_build := env.lastBuild
  let (health, stagesRes) :=
    match last_build with
    | .error _ => ("unknown", get_build_stages env none)
    | .ok lb =>
      if lb.building then ("building", get_build_stages env none)
      else if lb.result = some "ABORTED" then
        let hm := lastMeaningfulBuild env
        (hm.1, get_build_stages env hm.2)
      else if lb.result = some "SUCCESS" then ("healthy", get_build_stages env none)
      else if lb.result = some "FAILURE" then ("failed", get_build_stages env none)
      else if lb.result = some "UNSTABLE" then ("unstable", get_build_stages env none)
      else ("unknown", get_build_stages env none)
  { health := health,
    last_build := last_build,
    stages := stagesRes.stages,
    build_number := stagesRes.build_number,
    branch :=
      match last_build with
      | .error _ => some "main"
      | .ok lb => lb.branch }

/-! ## Source-host gateway (`services/github.py`) -/

/-- Strip leading and trailing whitespace from a character list. -/
def stripChars (l : List Char) : List Char :=
  ((l.dropWhile Char.isWhitespace).reverse.dropWhile Char.isWhitespace).reverse

/-- Python's `int(str)` on the strings this code can meet: optional
surrounding whitespace, an optional single sign, then decimal digits;
anything else raises `ValueError` (`none`).  (Underscore digit separators,
accepted by CPython, are not modelled; no claim involves them.) -/
def pyInt (s : String) : Option Int :=
  let t := stripChars s.toList
  let (sign, digits) : Int × List Char :=
    match t with
    | '-' :: rest => (-1, rest)
    | '+' :: rest => (1, rest)
    | _ => (1, t)
  if digits ≠ [] ∧ digits.all Char.isDigit then
    some (sign * (digits.foldl (fun n c => n * 10 + (c.toNat - 48)) 0 : Nat))
  else none

/-- Python's `str.split('.')`: cut at every `'.'`, keeping empty pieces
(`''.split('.') == ['']`). -/
def splitDotChars : List Char → List (List Char)
  | [] => [[]]
  | x :: rest =>
    match splitDotChars rest with
    | [] => [[]]
    | part :: parts =>
      if x = '.' then [] :: part :: parts else (x :: part) :: parts

/-- `current_version.split('.')` as a list of strings. -/
def pySplitDot (s : String) : List String :=
  (splitDotChars s.toList).map (fun cs => String.mk cs)

/-- The parse-and-bump block of `GitHubClient.bump_version`:
`parts = current_version.split('.')`; with exactly three parts, each is fed
to `int(…)` (a `ValueError` escapes `bump_version`, which has no handler —
`Except.error`); otherwise the fixed fallback `"0.0.1"`. -/
def bumpNewVersion (current_version : String) : Except String String :=
  let parts := pySplitDot current_version
  if parts.length = 3 then
    match pyInt (parts.getD 0 ""), pyInt (parts.getD 1 ""), pyInt (parts.getD 2 "") with
    | some major, some minor, some patch =>
      .ok (toString major ++ "." ++ toString minor ++ "." ++ toString (patch + 1))
    | _, _, _ => .error "ValueError: invalid literal for int()"
  else .ok "0.0.1"

/-- `get_file_content`'s result: the (stripped) decoded content and its SHA. -/
structure FileData where
  content : String
  sha : String
deriving Repr, DecidableEq

/-- What `bump_version` returns and writes: the result dict, plus the content
and precondition SHA passed to `update_file`. -/
structure BumpResult where
  previous_version : String
  new_version : String
  written_content : String
  written_sha : String
deriving Repr, DecidableEq

/-- `GitHubClient.bump_version(branch)` given the VERSION file read: bump the
content, write `new_version + '\n'` back under the original SHA, and report
both versions.  An unparseable three-part version raises out of the method. -/
def bump_version (file : FileData) : Except String BumpResult :=
  match bumpNewVersion file.content with
  | .error e => .error e
  | .ok new_version =>
    .ok { previous_version := file.content,
          new_version := new_version,
          written_content := new_version ++ "\n",
          written_sha := file.sha }

/-! ## Webhook health aggregator (`services/github.py`) -/

/-- One webhook delivery record; `status_code` is read with
`latest.get('status_code', 0)`.  (`delivered_at`/`event` are echoed into the
verdict unchanged and play no role in any decision, so they are omitted.) -/
structure Delivery where
  status_code : Option Int
deriving Repr, DecidableEq

/-- One configured webhook.  `id := none` models a hook dict with no `'id'`
key: `hook['id']` then raises `KeyError`.  `url` is
`hook.get('config', {}).get('url', 'unknown')` pre-looked-up: `none` when
either key is absent. -/
structure Hook where
  id : Option Nat
  url : Option String
deriving Repr, DecidableEq

/-- Embedding of the source-host upstream for the aggregator: the hook list
fetch and, per hook id, the deliveries fetch. -/
structure GhEnv where
  webhooks : Except String (List Hook)
  deliveries : Nat → Except String (List Delivery)

/-- One entry of `webhook_statuses`.  `last_delivery_status_code` is the
`status_code` inside the `last_delivery` sub-dict, present only on the
healthy/failing verdicts. -/
structure HookVerdict where
  id : Nat
  url : String
  status : String
  last_delivery_status_code : Option Int
deriving Repr, DecidableEq

/-- The body of the per-hook `try` in `get_webhook_health`: fetch the
deliveries (an error is caught and becomes the `'error'` verdict), report
`'unknown'` on an empty list, else judge the single most recent delivery by
`200 <= status_code < 300`. -/
def hookVerdict (env : GhEnv) (hook_id : Nat) (hook_url : String) : HookVerdict :=
  match env.deliveries hook_id with
  | .error _ =>
    { id := hook_id, url := hook_url, status := "error",
      last_delivery_status_code := none }
  | .ok [] =>
    { id := hook_id, url := hook_url, status := "unknown",
      last_delivery_status_code := none }
  | .ok (latest :: _) =>
    let status_code := latest.status_code.getD 0
    let is_success := 200 ≤ status_code ∧ status_code < 300
    { id := hook_id, url := hook_url,
      status := if is_success then "healthy" else "failing",
      last_delivery_status_code := some status_code }

/-- The `for hook in webhooks` loop.  `hook['id']` is evaluated *before* the
per-hook `try`, so a missing id raises out of the loop (`Except.error`).
`any_failing` is accumulated by boolean-or, exactly once per `'failing'`
verdict (the source sets it from `not is_success`, which holds iff the
verdict is `'failing'`). -/
def processHooks (env : GhEnv) : List Hook → Except String (List HookVerdict × Bool)
  | [] => .ok ([], false)
  | hook :: rest =>
    match hook.id with
    | none => .error "KeyError: 'id'"
    | some hook_id =>
      let v := hookVerdict env hook_id (hook.url.getD "unknown")
      match processHooks env rest with
      | .error e => .error e
      | .ok (vs, any_failing) =>
        .ok (v :: vs, (v.status == "failing") || any_failing)

/-- The dict returned by `get_webhook_health`; `webhooks := none` models the
error dict, which has no `webhooks` key. -/
structure WebhookHealth where
  status : String
  reachable : Bool
  webhooks : Option (List HookVerdict)

/-- `GitHubClient.get_webhook_health()`: the outer `try` turns any uncaught
exception (a failed hook-list fetch, or a `KeyError` escaping the loop) into
`{'status': 'error', 'reachable': False}`. -/
def get_webhook_health (env : GhEnv) : WebhookHealth :=
  match env.webhooks with
  | .error _ => { status := "error", reachable := false, webhooks := none }
  | .ok hooks =>
    if hooks.isEmpty then
      { status := "warning", reachable := true, webhooks := some [] }
    else
      match processHooks env hooks with
      | .error _ => { status := "error", reachable := false, webhooks := none }
      | .ok (vs, any_failing) =>
        { status := if any_failing then "failing" else "healthy",
          reachable := true, webhooks := some vs }

/-! ## Concrete test fixtures used by witnesses and counterexamples -/

/-- A stage that differs only in its normalized status. -/
def stageWithStatus (s : String) : Stage :=
  { name := none, status := s, duration_ms := 0, start_time := none }

/-- A stage that differs only in its start time. -/
def stageAt (t : Option Int) : Stage :=
  { name := none, status := "success", duration_ms := 0, start_time := t }

/-- A latest build that finished as `ABORTED` (build #50). -/
def lbAborted : LastBuild :=
  { number := some 50, result := some "ABORTED", building := false, branch := none }

/-- Latest build aborted; all three historical-marker queries raise; the Blue
Ocean node fetch succeeds with an empty node list. -/
def envMarkersFail : JenkinsEnv :=
  { lastBuild := .ok lbAborted,
    lastSuccessful := .error (), lastFailed := .error (), lastUnstable := .error (),
    nodes := fun _ => .ok [] }

/-- The spec's §8.4 scenario: latest build #42 aborted, last-successful #40,
last-failed #41, last-unstable query raises. -/
def envAbortedExample : JenkinsEnv :=
  { lastBuild := .ok { number := some 42, result := some "ABORTED", building := false, branch := none },
    lastSuccessful := .ok 40, lastFailed := .ok 41, lastUnstable := .error (),
    nodes := fun _ => .ok [] }

/-- Three webhooks for the mixed scenario. -/
def ghHooksMixed : List Hook :=
  [{ id := some 1, url := some "http://a" },
   { id := some 2, url := none },
   { id := some 3, url := some "http://c" }]

/-- Three webhooks: #1's most recent delivery got HTTP 500, #2 has no
deliveries, #3's delivery fetch raises. -/
def ghEnvMixed : GhEnv :=
  { webhooks := .ok ghHooksMixed,
    deliveries := fun hook_id =>
      if hook_id = 1 then .ok [{ status_code := some 500 }]
      else if hook_id = 2 then .ok []
      else .error "boom" }

/-- A repository with no webhooks configured. -/
def ghEnvEmpty : GhEnv :=
  { webhooks := .ok [], deliveries := fun _ => .ok [] }

/-- The hook-list fetch itself raises. -/
def ghEnvDown : GhEnv :=
  { webhooks := .error "boom", deliveries := fun _ => .ok [] }

/-- The second hook dict lacks an `'id'` key; every delivery fetch would
succeed with a healthy delivery. -/
def ghEnvNoId : GhEnv :=
  { webhooks := .ok [{ id := some 1, url := some "http://a" },
                     { id := none, url := some "http://b" }],
    deliveries := fun _ => .ok [{ status_code := some 204 }] }

/-! ## Theorems -/

/-- C1 (counterexample): a failed stage listed before a running stage makes
the overall-status loop return `FAILED` — the first matching *stage* wins,
so `running` does not take precedence over an earlier `failed`, contradicting
the claim (whose reading is captured by `specOverallStatus`). -/
theorem overall_status_failed_before_running_cex :
    overallStatus [stageWithStatus "failed", stageWithStatus "running"] = "FAILED" ∧
    specOverallStatus [stageWithStatus "failed", stageWithStatus "running"] = "IN_PROGRESS" ∧
    overallStatus [stageWithStatus "failed", stageWithStatus "running"] ≠
      specOverallStatus [stageWithStatus "failed", stageWithStatus "running"] := by
  refine ⟨rfl, rfl, ?_⟩
  decide

/-- C1 (amended): the overall status is decided by the *first* stage in
iteration order whose status is `running` or `failed` (`running` →
`IN_PROGRESS`, `failed` → `FAILED`); with no such stage it is `SUCCESS`. -/
theorem overall_status_first_match (stages : List Stage) :
    overallStatus stages =
      match stages.find? (fun s => s.status == "running" || s.status == "failed") with
      | some s => if s.status == "running" then "IN_PROGRESS" else "FAILED"
      | none => "SUCCESS" := by
  induction stages with
  | nil => rfl
  | cons s rest ih =>
    by_cases h1 : s.status = "running"
    · simp [overallStatus, List.find?_cons, h1]
    · by_cases h2 : s.status = "failed"
      · simp [overallStatus, List.find?_cons, h1, h2]
      · simp [overallStatus, List.find?_cons, h1, h2, ih]

/-- C2 (counterexample): a version with exactly three dot-separated parts,
one of which is not an integer, does not fall back to `"0.0.1"` — the
`int(…)` call raises `ValueError` out of `bump_version`. -/
theorem bump_version_three_part_nonnumeric_cex :
    bump_version ⟨"1.2.x", "s0"⟩ = .error "ValueError: invalid literal for int()" ∧
    (bump_version ⟨"1.2.x", "s0"⟩).isOk = false := by
  exact ⟨rfl, rfl⟩

/-- C2 (amended): `bump_version` increments the final component when the
content splits into exactly three integer parts, falls back to `"0.0.1"`
exactly when the number of dot-separated parts is not three, and raises
(returns an error, with no fallback) when there are three parts but one of
them is not an integer.  The successful write always carries the original
content hash. -/
theorem bump_version_fallback_rule (file : FileData) :
    (((pySplitDot file.content).length ≠ 3) →
       bump_version file = .ok ⟨file.content, "0.0.1", "0.0.1" ++ "\n", file.sha⟩) ∧
    (∀ major minor patch : Int,
       (pySplitDot file.content).length = 3 →
       pyInt ((pySplitDot file.content).getD 0 "") = some major →
       pyInt ((pySplitDot file.content).getD 1 "") = some minor →
       pyInt ((pySplitDot file.content).getD 2 "") = some patch →
       bump_version file =
         .ok ⟨file.content,
              toString major ++ "." ++ toString minor ++ "." ++ toString (patch + 1),
              toString major ++ "." ++ toString minor ++ "." ++ toString (patch + 1) ++ "\n",
              file.sha⟩) ∧
    ((pySplitDot file.content).length = 3 →
       (pyInt ((pySplitDot file.content).getD 0 "") = none ∨
        pyInt ((pySplitDot file.content).getD 1 "") = none ∨
        pyInt ((pySplitDot file.content).getD 2 "") = none) →
       bump_version file = .error "ValueError: invalid literal for int()") := by
  refine ⟨?_, ?_, ?_⟩
  · intro h
    simp [bump_version, bumpNewVersion, h]
  · intro major minor patch hl h0 h1 h2
    simp only [bump_version, bumpNewVersion, hl, h0, h1, h2, if_true]
  · intro hl h
    rcases h0 : pyInt ((pySplitDot file.content).getD 0 "") with _ | a <;>
      rcases h1 : pyInt ((pySplitDot file.content).getD 1 "") with _ | b <;>
        rcases h2 : pyInt ((pySplitDot file.content).getD 2 "") with _ | c <;>
          simp only [bump_version, bumpNewVersion, hl, h0, h1, h2, if_true] <;>
          first
            | rfl
            | (exfalso; rcases h with h | h | h <;> simp_all)

/-- C2 (witness): `"0.1.5"` bumps to `"0.1.6"` and `"not-a-version"` falls
back to `"0.0.1"`, via `bump_version_fallback_rule`. -/
theorem bump_version_fallback_rule_witness :
    bump_version ⟨"0.1.5", "abc"⟩ = .ok ⟨"0.1.5", "0.1.6", "0.1.6\n", "abc"⟩ ∧
    bump_version ⟨"not-a-version", "abc"⟩ =
      .ok ⟨"not-a-version", "0.0.1", "0.0.1\n", "abc"⟩ := by
  constructor
  · exact (bump_version_fallback_rule ⟨"0.1.5", "abc"⟩).2.1 0 1 5 (by decide)
      (by decide) (by decide) (by decide)
  · exact (bump_version_fallback_rule ⟨"not-a-version", "abc"⟩).1 (by decide)

/-- The sort key, re-expressed through `start_time.getD 0`: a stage is in the
started bucket iff its start time is present and nonzero. -/
theorem stageKey_eq (s : Stage) :
    stageKey s = if s.start_time.getD 0 ≠ 0 then (0, s.start_time.getD 0) else (1, 0) := by
  unfold stageKey
  rcases h : s.start_time with _ | t <;> simp [h]

/-- Stability of the stage sort: the stages with any fixed sort key appear in
the output in their original relative order. -/
theorem sortStages_stable_filter (l : List Stage) (k : Nat × Int) :
    (sortStages l).filter (fun s => decide (stageKey s = k)) =
      l.filter (fun s => decide (stageKey s = k)) := by
  have hpair : (l.filter (fun s => decide (stageKey s = k))).Pairwise stageLe := by
    apply List.pairwise_of_forall_mem_list
    intro a ha b hb
    have hak := List.of_mem_filter ha
    have hbk := List.of_mem_filter hb
    simp only [decide_eq_true_eq] at hak hbk
    unfold stageLe keyLe
    rw [hak, hbk]
    omega
  have hsub : List.Sublist (l.filter (fun s => decide (stageKey s = k))) (sortStages l) :=
    List.sublist_insertionSort hpair (List.filter_sublist l)
  have hsub2 : List.Sublist (l.filter (fun s => decide (stageKey s = k)))
      ((sortStages l).filter (fun s => decide (stageKey s = k))) := by
    have h2 := hsub.filter (fun s => decide (stageKey s = k))
    rw [List.filter_filter] at h2
    simpa only [Bool.and_self] using h2
  have hperm : List.Perm ((sortStages l).filter (fun s => decide (stageKey s = k)))
      (l.filter (fun s => decide (stageKey s = k))) :=
    (List.perm_insertionSort stageLe l).filter _
  exact (hsub2.eq_of_length hperm.length_eq.symm).symm

/-- C4 (counterexample): a stage whose `start_time` is present but `0` is
*falsy* in Python, so the sort sends it to the trailing bucket: with start
times `[0, 100]` the output order is `[100, 0]`, although neither field is
absent or null and `100 ≤ 0` fails — refuting "ascending with exactly the
absent-or-null stages last". -/
theorem stage_sort_zero_start_cex :
    sortStages [stageAt (some 0), stageAt (some 100)] =
      [stageAt (some 100), stageAt (some 0)] ∧
    (stageAt (some 0)).start_time = some 0 ∧
    (stageAt (some 100)).start_time = some 100 ∧
    ¬ ((100 : Int) ≤ 0) := by
  exact ⟨by decide, rfl, rfl, by decide⟩

/-- C4 (amended): the stage sort is a permutation that orders stages
ascending by start time among stages with a *truthy* (present and nonzero)
start time, places exactly the stages with a falsy start time (absent, null,
or zero) after all of them, and is stable (original relative order preserved
among stages with equal sort keys, in particular among the falsy-start
stages). -/
theorem stage_sort_order (l : List Stage) :
    List.Perm (sortStages l) l ∧
    (sortStages l).Pairwise (fun a b =>
      (b.start_time.getD 0 ≠ 0 → a.start_time.getD 0 ≠ 0) ∧
      (a.start_time.getD 0 ≠ 0 → b.start_time.getD 0 ≠ 0 →
        a.start_time.getD 0 ≤ b.start_time.getD 0)) ∧
    ∀ k : Nat × Int,
      (sortStages l).filter (fun s => decide (stageKey s = k)) =
        l.filter (fun s => decide (stageKey s = k)) := by
  refine ⟨List.perm_insertionSort stageLe l, ?_, fun k => sortStages_stable_filter l k⟩
  have hs := List.sorted_insertionSort stageLe l
  refine hs.imp ?_
  intro a b hab
  unfold stageLe keyLe at hab
  rw [stageKey_eq, stageKey_eq] at hab
  split_ifs at hab <;> simp_all

/-- Every pair the marker-collection loop can produce carries one of the
three marker healths. -/
theorem collectBuilds_health (env : JenkinsEnv) :
    ∀ p ∈ collectBuilds env, p.1 = "healthy" ∨ p.1 = "failed" ∨ p.1 = "unstable" := by
  intro p hp
  unfold collectBuilds at hp
  rcases env with ⟨lb, ls, lf, lu, nd⟩
  dsimp at hp
  rcases ls with n1 | e1 <;> rcases lf with n2 | e2 <;> rcases lu with n3 | e3 <;>
    simp_all [List.mem_append]
  all_goals first
    | (rcases hp with ⟨_, rfl⟩ | ⟨_, rfl⟩ | ⟨_, rfl⟩ <;> simp)
    | (rcases hp with ⟨_, rfl⟩ | ⟨_, rfl⟩ <;> simp)

/-- `_get_last_meaningful_build` returns either the empty-set fallback or a
pair collected from the marker queries. -/
theorem lastMeaningfulBuild_cases (env : JenkinsEnv) :
    lastMeaningfulBuild env = ("unknown", none) ∨
    ∃ p ∈ collectBuilds env, lastMeaningfulBuild env = (p.1, some p.2) := by
  unfold lastMeaningfulBuild
  by_cases he : (collectBuilds env).isEmpty
  · left; simp [he]
  · simp only [he]
    cases hs : sortBuildsDesc (collectBuilds env) with
    | nil => left; simp
    | cons b t =>
      right
      refine ⟨b, ?_, by simp⟩
      have hb : b ∈ sortBuildsDesc (collectBuilds env) := by
        rw [hs]; exact List.mem_cons_self b t
      exact (List.perm_insertionSort buildDescLe (collectBuilds env)).mem_iff.mp hb

/-- C3 (counterexample): latest build #50 aborted, all three marker queries
raise, yet the reported build number is `50`, not absent — the fallback stage
fetch (`get_build_stages(None)`) re-reads the latest build and succeeds,
contradicting "reports no build number". -/
theorem aborted_no_markers_cex :
    envMarkersFail.lastBuild = .ok lbAborted ∧
    lbAborted.result = some "ABORTED" ∧
    lbAborted.building = false ∧
    collectBuilds envMarkersFail = [] ∧
    (get_pipeline_status envMarkersFail).health = "unknown" ∧
    (get_pipeline_status envMarkersFail).build_number = some 50 := by
  exact ⟨rfl, rfl, rfl, rfl, rfl, rfl⟩

/-- C3 (amended): with an aborted latest build and no marker query yielding a
nonzero build number, the reconciler reports health `unknown` and returns
normally (the embedding is total, mirroring the catch-all handlers); the
reported build number comes from the fallback stage fetch of the *latest*
build — absent when that fetch fails, the latest build's own number when it
succeeds. -/
theorem aborted_no_markers (env : JenkinsEnv) (lb : LastBuild)
    (hlb : env.lastBuild = .ok lb) (hb : lb.building = false)
    (hres : lb.result = some "ABORTED") (hempty : collectBuilds env = []) :
    (get_pipeline_status env).health = "unknown" ∧
    (get_pipeline_status env).build_number =
      (match env.nodes lb.number with
       | .error _ => none
       | .ok _ => lb.number) := by
  unfold get_pipeline_status
  simp only [hlb, hb, hres]
  have hlmb : lastMeaningfulBuild env = ("unknown", none) := by
    simp [lastMeaningfulBuild, hempty]
  simp only [hlmb]
  unfold get_build_stages
  simp only [hlb]
  rcases hn : env.nodes lb.number with e | data <;> simp [hn]

/-- C3 (witness): `aborted_no_markers` applied to the concrete environment
`envMarkersFail`. -/
theorem aborted_no_markers_witness :
    collectBuilds envMarkersFail = [] ∧
    ((get_pipeline_status envMarkersFail).health = "unknown" ∧
     (get_pipeline_status envMarkersFail).build_number =
       (match envMarkersFail.nodes lbAborted.number with
        | .error _ => none
        | .ok _ => lbAborted.number)) :=
  ⟨rfl, aborted_no_markers envMarkersFail lbAborted rfl rfl rfl rfl⟩

/-- C5: with an aborted latest build, the reconciler delegates to the
last-meaningful-build lookup: the collected pair with the (unique) highest
build number supplies the canonical health, and that build number is the one
whose Blue Ocean stages are fetched and displayed.  Per-query failure
isolation is structural: `collectBuilds` is defined per query, and the
hypotheses say nothing about queries that failed. -/
theorem aborted_delegates_to_max (env : JenkinsEnv) (lb : LastBuild)
    (h : String) (n : Nat)
    (hlb : env.lastBuild = .ok lb) (hb : lb.building = false)
    (hres : lb.result = some "ABORTED")
    (hmem : (h, n) ∈ collectBuilds env)
    (hmax : ∀ p ∈ collectBuilds env, p.2 ≤ n ∧ (p.2 = n → p = (h, n))) :
    lastMeaningfulBuild env = (h, some n) ∧
    (get_pipeline_status env).health = h ∧
    (get_pipeline_status env).build_number =
      (match env.nodes (some n) with
       | .error _ => none
       | .ok _ => some n) ∧
    (get_pipeline_status env).stages =
      (match env.nodes (some n) with
       | .error _ => []
       | .ok data => stagesFromNodes data) := by
  have hlmb : lastMeaningfulBuild env = (h, some n) := by
    unfold lastMeaningfulBuild
    have hne : (collectBuilds env).isEmpty = false := by
      cases hcb : collectBuilds env
      · rw [hcb] at hmem; cases hmem
      · rfl
    simp only [hne, Bool.false_eq_true, if_false]
    unfold sortBuildsDesc
    cases hs : (collectBuilds env).insertionSort buildDescLe with
    | nil =>
      exfalso
      have hp := List.perm_insertionSort buildDescLe (collectBuilds env)
      rw [hs] at hp
      rw [← hp.nil_eq] at hmem
      cases hmem
    | cons b t =>
      have hbmem : b ∈ collectBuilds env := by
        refine (List.perm_insertionSort buildDescLe (collectBuilds env)).mem_iff.mp ?_
        rw [hs]; exact List.mem_cons_self b t
      have hsorted := List.sorted_insertionSort buildDescLe (collectBuilds env)
      rw [hs] at hsorted
      have hmem' : (h, n) ∈ b :: t := by
        rw [← hs]
        exact (List.perm_insertionSort buildDescLe (collectBuilds env)).mem_iff.mpr hmem
      rcases List.mem_cons.mp hmem' with heq | hmem_t
      · rw [← heq]
      · have hrel : buildDescLe b (h, n) := List.rel_of_sorted_cons hsorted _ hmem_t
        obtain ⟨hle, huniq⟩ := hmax b hbmem
        have hbn : b.2 = n := le_antisymm hle hrel
        rw [huniq hbn]
  refine ⟨hlmb, ?_⟩
  unfold get_pipeline_status
  simp only [hlb, hb, hres, hlmb]
  unfold get_build_stages
  rcases hn : env.nodes (some n) with e | data <;> simp [hn]

/-- C5 (witness): the spec's §8.4 scenario — success at #40, failed at #41,
unstable query raises — yields health `failed` and build #41's stages. -/
theorem aborted_delegates_to_max_witness :
    lastMeaningfulBuild envAbortedExample = ("failed", some 41) ∧
    (get_pipeline_status envAbortedExample).health = "failed" ∧
    (get_pipeline_status envAbortedExample).build_number = some 41 ∧
    (get_pipeline_status envAbortedExample).stages = [] := by
  exact aborted_delegates_to_max envAbortedExample
    { number := some 42, result := some "ABORTED", building := false, branch := none }
    "failed" 41 rfl rfl rfl (by decide) (by decide)

/-- C7: whatever the latest-build observation and upstream outcomes, the
reconciled health is one of the five canonical values — in particular never
`aborted`. -/
theorem reconcile_health_range (env : JenkinsEnv) :
    (get_pipeline_status env).health ∈
      (["healthy", "building", "failed", "unstable", "unknown"] : List String) := by
  unfold get_pipeline_status
  rcases hlb : env.lastBuild with e | lb
  · simp [hlb]
  · by_cases hb : lb.building
    · simp [hlb, hb]
    · by_cases h1 : lb.result = some "ABORTED"
      · simp only [hlb, hb, h1]
        rcases lastMeaningfulBuild_cases env with h | ⟨p, hp, h⟩
        · simp [h, hb]
        · rcases collectBuilds_health env p hp with h2 | h2 | h2 <;> simp [h, h2, hb]
      · by_cases h2 : lb.result = some "SUCCESS"
        · simp [hlb, hb, h1, h2]
        · by_cases h3 : lb.result = some "FAILURE"
          · simp [hlb, hb, h1, h2, h3]
          · by_cases h4 : lb.result = some "UNSTABLE"
            · simp [hlb, hb, h1, h2, h3, h4]
            · simp [hlb, hb, h1, h2, h3, h4]

/-- C6: `_map_blueocean_status` agrees with the spec's five-step precedence
(first match wins), including the `FINISHED` sub-map and the `unknown`
defaults, on every `(result, state)` pair. -/
theorem blueocean_status_matches_spec :
    ∀ result state : Option String,
      map_blueocean_status result state = specMapBlueOceanStatus result state := by
  intro result state
  unfold map_blueocean_status specMapBlueOceanStatus
  rcases result with _ | r
  · rfl
  · split_ifs <;> simp_all [result_map, dictGetD]

/-- The per-hook loop, when every hook dict has an `'id'` key: it never
aborts — each hook gets a verdict regardless of its delivery-fetch outcome —
and `any_failing` is exactly "some verdict is `'failing'`". -/
theorem processHooks_eq (env : GhEnv) (hooks : List Hook)
    (hid : ∀ h ∈ hooks, h.id.isSome) :
    processHooks env hooks =
      .ok (hooks.map (fun h => hookVerdict env (h.id.getD 0) (h.url.getD "unknown")),
           (hooks.map (fun h => hookVerdict env (h.id.getD 0) (h.url.getD "unknown"))).any
             (fun v => v.status == "failing")) := by
  induction hooks with
  | nil => rfl
  | cons h rest ih =>
    have hh := hid h (List.mem_cons_self h rest)
    rcases hi : h.id with _ | i
    · rw [hi] at hh; cases hh
    · have ih' := ih (fun h hm => hid h (List.mem_cons.mpr (Or.inr hm)))
      unfold processHooks
      rw [hi, ih']
      simp [hi]

/-- A hook dict with no `'id'` key raises `KeyError` out of the loop, past
every per-hook handler. -/
theorem processHooks_error_of_missing_id (env : GhEnv) :
    ∀ hooks : List Hook, (∃ h ∈ hooks, h.id = none) →
      processHooks env hooks = .error "KeyError: 'id'" := by
  intro hooks hex
  induction hooks with
  | nil => obtain ⟨h, hm, _⟩ := hex; cases hm
  | cons hk rest ih =>
    obtain ⟨h, hm, hnone⟩ := hex
    rcases List.mem_cons.mp hm with rfl | hm'
    · unfold processHooks; rw [hnone]
    · rcases hi : hk.id with _ | i
      · unfold processHooks; rw [hi]
      · unfold processHooks
        rw [hi, ih ⟨h, hm', hnone⟩]

/-- C8: with a non-empty hook list (all carrying ids), every hook receives a
verdict — `error` when its delivery fetch fails, `unknown` with no
deliveries, else `healthy` iff the single most recent delivery's status code
is in `[200, 300)` — and the aggregate is `failing` iff some hook's verdict
is `failing` (otherwise `healthy`), so per-hook `unknown`/`error` verdicts
never flip the aggregate. -/
theorem webhook_verdicts (env : GhEnv) (hooks : List Hook)
    (hw : env.webhooks = .ok hooks) (hne : hooks ≠ [])
    (hid : ∀ h ∈ hooks, h.id.isSome) :
    (get_webhook_health env).reachable = true ∧
    (get_webhook_health env).webhooks =
      some (hooks.map (fun h => hookVerdict env (h.id.getD 0) (h.url.getD "unknown"))) ∧
    ((get_webhook_health env).status = "failing" ↔
      ∃ h ∈ hooks, (hookVerdict env (h.id.getD 0) (h.url.getD "unknown")).status = "failing") ∧
    ((get_webhook_health env).status = "failing" ∨
      (get_webhook_health env).status = "healthy") ∧
    (∀ hook_id hook_url e, env.deliveries hook_id = .error e →
      (hookVerdict env hook_id hook_url).status = "error") ∧
    (∀ hook_id hook_url, env.deliveries hook_id = .ok [] →
      (hookVerdict env hook_id hook_url).status = "unknown") ∧
    (∀ hook_id hook_url latest rest, env.deliveries hook_id = .ok (latest :: rest) →
      (hookVerdict env hook_id hook_url).status =
        (if 200 ≤ latest.status_code.getD 0 ∧ latest.status_code.getD 0 < 300
         then "healthy" else "failing")) := by
  have hne' : hooks.isEmpty = false := by
    cases hooks
    · simp at hne
    · rfl
  have hpe := processHooks_eq env hooks hid
  unfold get_webhook_health
  rw [hw]
  simp only [hne', Bool.false_eq_true, if_false, hpe]
  refine ⟨by trivial, by trivial, ?_, ?_, ?_, ?_, ?_⟩
  · by_cases ha : (hooks.map (fun h => hookVerdict env (h.id.getD 0) (h.url.getD "unknown"))).any
        (fun v => v.status == "failing")
    · simp only [ha, if_true]
      constructor
      · intro _
        simp only [List.any_eq_true, List.mem_map] at ha
        obtain ⟨v, ⟨h, hm, rfl⟩, hv⟩ := ha
        exact ⟨h, hm, by simpa using hv⟩
      · intro _; trivial
    · simp only [ha, if_false]
      constructor
      · intro h; exact absurd h (by decide)
      · intro ⟨h, hm, hv⟩
        exfalso
        apply ha
        simp only [List.any_eq_true, List.mem_map]
        exact ⟨_, ⟨h, hm, rfl⟩, by simpa using hv⟩
  · by_cases ha : (hooks.map (fun h => hookVerdict env (h.id.getD 0) (h.url.getD "unknown"))).any
        (fun v => v.status == "failing") <;> simp [ha]
  · intro hook_id hook_url e he; simp [hookVerdict, he]
  · intro hook_id hook_url he; simp [hookVerdict, he]
  · intro hook_id hook_url latest rest he
    simp only [hookVerdict, he]

/-- C8 (witness): the mixed scenario — one failing delivery (HTTP 500), one
hook with no deliveries, one raising delivery fetch — aggregates to
`failing`, via `webhook_verdicts`. -/
theorem webhook_verdicts_witness :
    (get_webhook_health ghEnvMixed).reachable = true ∧
    (get_webhook_health ghEnvMixed).status = "failing" := by
  have hw := webhook_verdicts ghEnvMixed ghHooksMixed rfl (by decide) (by decide)
  refine ⟨hw.1, hw.2.2.1.mpr ⟨⟨some 1, some "http://a"⟩, by decide, rfl⟩⟩

/-- C9: an empty hook list yields `warning`/reachable/empty verdicts
(absence of webhooks is not an error), and a failed hook-list fetch yields
`error`/unreachable. -/
theorem webhook_boundary (env : GhEnv) :
    (env.webhooks = .ok [] →
       (get_webhook_health env).status = "warning" ∧
       (get_webhook_health env).reachable = true ∧
       (get_webhook_health env).webhooks = some []) ∧
    (∀ e, env.webhooks = .error e →
       (get_webhook_health env).status = "error" ∧
       (get_webhook_health env).reachable = false) := by
  constructor
  · intro h; simp [get_webhook_health, h]
  · intro e h; simp [get_webhook_health, h]

/-- C9 (witness): `webhook_boundary` applied to the zero-webhook and
list-fetch-failure environments. -/
theorem webhook_boundary_witness :
    ((get_webhook_health ghEnvEmpty).status = "warning" ∧
     (get_webhook_health ghEnvEmpty).reachable = true ∧
     (get_webhook_health ghEnvEmpty).webhooks = some []) ∧
    ((get_webhook_health ghEnvDown).status = "error" ∧
     (get_webhook_health ghEnvDown).reachable = false) :=
  ⟨(webhook_boundary ghEnvEmpty).1 rfl, (webhook_boundary ghEnvDown).2 "boom" rfl⟩

/-- C10: a hook dict without an `'id'` key escapes the per-hook isolation:
the whole aggregate collapses to `error`/unreachable and the verdicts of the
other hooks are discarded (no `webhooks` key in the result). -/
theorem webhook_missing_id_escapes (env : GhEnv) (hooks : List Hook) (h : Hook)
    (hw : env.webhooks = .ok hooks) (hmem : h ∈ hooks) (hid : h.id = none) :
    (get_webhook_health env).status = "error" ∧
    (get_webhook_health env).reachable = false ∧
    (get_webhook_health env).webhooks = none := by
  have hne : hooks.isEmpty = false := by
    cases hooks
    · cases hmem
    · rfl
  have hpe := processHooks_error_of_missing_id env hooks ⟨h, hmem, hid⟩
  unfold get_webhook_health
  rw [hw]
  simp [hne, hpe]

/-- C10 (witness): `webhook_missing_id_escapes` applied to `ghEnvNoId`, whose
second hook lacks an id while the first would have been healthy. -/
theorem webhook_missing_id_escapes_witness :
    (get_webhook_health ghEnvNoId).status = "error" ∧
    (get_webhook_health ghEnvNoId).reachable = false ∧
    (get_webhook_health ghEnvNoId).webhooks = none := by
  exact webhook_missing_id_escapes ghEnvNoId
    [⟨some 1, some "http://a"⟩, ⟨none, some "http://b"⟩]
    ⟨none, some "http://b"⟩ rfl (by decide) rfl

end CIDashboard
